import Mathlib

/-!
# Verification of the rxjs-wikipedia autosuggest widget

Shallow embedding of the core of `src/unnamed/part_000` / `part_001`
(the final draft, lines 1–303 of `part_001`, is the authority where
drafts diverge): the suggestion state machine driven by settled search
terms with switch-latest cancellation, the response-to-suggestions
conversion, the keyboard-navigation cursor, and the sessionStorage
persistence codec with its 30-minute TTL.

JavaScript runtime values that flow through `JSON.parse`/`JSON.stringify`
are modelled by the inductive `JVal`.  The store holds the parsed JSON
value directly (`JSON.parse (JSON.stringify v) = v` for the values the
code stores: no `undefined`, no `NaN`, no cycles).  JS numbers are
modelled as `Int` (every number the code writes is an epoch-millisecond
integer); `NaN` is represented by `none` in `Option Int` results of the
ToNumber coercion.
-/

/-- A JSON value, as produced by `JSON.parse`. -/
inductive JVal where
  | null
  | jbool (b : Bool)
  | num (n : Int)
  | str (s : String)
  | arr (elems : List JVal)
  | obj (fields : List (String × JVal))

/-- Property access `v.k` on a parsed JSON value: `some` the field value
for an object that has the key, otherwise `none` (JS `undefined`). -/
def JVal.lookupField : JVal → String → Option JVal
  | .obj fs, k => fs.lookup k
  | _, _ => none

/-- JS falsiness of a JSON value (`!parsed` in `loadPersisted`):
`null`, `false`, `0` and `""` are falsy; arrays and objects never are. -/
def JVal.falsy : JVal → Bool
  | .null => true
  | .jbool b => !b
  | .num n => n == 0
  | .str s => s.isEmpty
  | .arr _ => false
  | .obj _ => false

/-- How one element prints inside `Array.prototype.join` (used by the
ToPrimitive step of numeric coercion of an array): `null` joins as the
empty string, nested arrays join recursively, objects print as
`[object Object]`. -/
def jsJoinElem : JVal → String
  | .null => ""
  | .jbool b => if b then "true" else "false"
  | .num n => toString n
  | .str s => s
  | .arr xs => String.intercalate "," (xs.attach.map fun x => jsJoinElem x.1)
  | .obj _ => "[object Object]"
decreasing_by
  simp_wf
  have := List.sizeOf_lt_of_mem x.2
  omega

/-- JS `Number(string)`: the trimmed empty string is `0`, an integer
literal is its value, anything else is `NaN` (`none`).  (Fractional and
exponent literals are outside the model; no integer the code stores
produces them.) -/
def jsStringToNumber (s : String) : Option Int :=
  let t := s.trim
  if t.isEmpty then some 0 else t.toInt?

/-- JS ToNumber coercion of a JSON value: `null → 0`, booleans → 0/1,
strings via `Number(...)`, arrays via their join string, plain objects →
`NaN`.  `none` is `NaN`. -/
def jsToNumber : JVal → Option Int
  | .null => some 0
  | .jbool b => some (if b then 1 else 0)
  | .num n => some n
  | .str s => jsStringToNumber s
  | .arr xs => jsStringToNumber (String.intercalate "," (xs.map jsJoinElem))
  | .obj _ => none

/-- ToNumber of a possibly-`undefined` value: `Number(undefined) = NaN`. -/
def jsToNumberU : Option JVal → Option Int
  | none => none
  | some v => jsToNumber v

/-- JS subtraction `a - v` where `a` is a number and `v` an arbitrary
(possibly `undefined`) value: any `NaN` operand makes the result `NaN`. -/
def jsSub (a : Int) (v : Option JVal) : Option Int :=
  match jsToNumberU v with
  | none => none
  | some x => some (a - x)

/-- JS `>` between a possibly-`NaN` number and a number: every
comparison with `NaN` is `false`. -/
def jsGt (a : Option Int) (b : Int) : Bool :=
  match a with
  | none => false
  | some x => decide (b < x)

/-- The raw 4-tuple `opensearch` response:
`[queryEcho, titles, descriptions, urls]`. -/
abbrev WikiOpenSearch := String × List String × List String × List String

/-- The JS object `{ title, description, url }` built by `toSuggestions`
for one result row (all three fields present, as in the source's loop). -/
def mkSuggestion (title description url : String) : JVal :=
  .obj [("title", .str title), ("description", .str description), ("url", .str url)]

/-- `toSuggestions`: zip titles/descriptions/urls positionally, truncated
to `n = min` of the three lengths, ignoring the query echo (`data.1`). -/
def toSuggestions (data : WikiOpenSearch) : List JVal :=
  let titles := data.2.1
  let descriptions := data.2.2.1
  let urls := data.2.2.2
  let n := min titles.length (min descriptions.length urls.length)
  (List.range n).map fun i =>
    mkSuggestion (titles.getD i "") (descriptions.getD i "") (urls.getD i "")

/-- The `SuggestState` tagged union.  `items` are the JS suggestion
objects (`JVal`s); the `error` case carries the failure message. -/
inductive SuggestState where
  | idle (term : String) (items : List JVal)
  | loading (term : String) (items : List JVal)
  | done (term : String) (items : List JVal)
  | error (term : String) (items : List JVal) (message : String)

/-- The `term` field every `SuggestState` case carries. -/
def SuggestState.term : SuggestState → String
  | .idle t _ => t
  | .loading t _ => t
  | .done t _ => t
  | .error t _ _ => t

/-- The `items` field every `SuggestState` case carries. -/
def SuggestState.items : SuggestState → List JVal
  | .idle _ its => its
  | .loading _ its => its
  | .done _ its => its
  | .error _ its _ => its

/-! ## Persistence: `savePersisted` / `loadPersisted` / `clearPersisted`

The sessionStorage slot under `STORAGE_KEY`.  `content = none` means the
key is absent; `some none` a stored string `JSON.parse` rejects;
`some (some v)` a stored string parsing to `v`.  The three `…Throws`
flags make the corresponding storage primitive throw (quota exceeded,
storage unavailable), which the source catches at every call site. -/

structure Store where
  content : Option (Option JVal)
  getThrows : Bool
  setThrows : Bool
  removeThrows : Bool

/-- `PERSIST_TTL_MS = 30 * 60 * 1000`. -/
def PERSIST_TTL_MS : Int := 30 * 60 * 1000

/-- The JSON object `JSON.stringify` writes for
`{ term, items, savedAt }` (items are already JSON-safe objects). -/
def encodePersisted (term : String) (items : List JVal) (savedAt : Int) : JVal :=
  .obj [("term", .str term), ("items", .arr items), ("savedAt", .num savedAt)]

/-- `savePersisted`: `setItem` inside `try`; a throwing store leaves the
slot unchanged and the exception is swallowed. -/
def savePersisted (st : Store) (term : String) (items : List JVal) (savedAt : Int) :
    Store :=
  if st.setThrows then st
  else { st with content := some (some (encodePersisted term items savedAt)) }

/-- `clearPersisted`: `removeItem` inside `try`. -/
def clearPersisted (st : Store) : Store :=
  if st.removeThrows then st
  else { st with content := none }

/-- `loadPersisted` at time `now` (epoch ms).  Returns the restored
`(term, items)` (the fields the caller reads) and the store after the
call.  Mirrors the source line by line: a throwing `getItem` or a parse
failure is caught and yields `null`; falsy parse result, non-string
`term` or non-array `items` yield `null`; `now - savedAt > TTL` (JS
arithmetic: `NaN` comparisons are false) deletes the record — with the
`removeItem` throw also caught — and yields `null`. -/
def loadPersisted (st : Store) (now : Int) : Option (String × List JVal) × Store :=
  if st.getThrows then (none, st)
  else
    match st.content with
    | none => (none, st)
    | some none => (none, st)
    | some (some parsed) =>
      if parsed.falsy then (none, st)
      else
        match parsed.lookupField "term", parsed.lookupField "items" with
        | some (.str t), some (.arr its) =>
          if jsGt (jsSub now (parsed.lookupField "savedAt")) PERSIST_TTL_MS then
            (none, if st.removeThrows then st else { st with content := none })
          else (some (t, its), st)
        | _, _ => (none, st)

/-- The initial `SuggestState` seeded from the startup read:
`done(restored.term, restored.items)` when a snapshot was restored,
`idle("", [])` otherwise. -/
def initialStateOf (restored : Option (String × List JVal)) : SuggestState :=
  match restored with
  | some (t, its) => .done t its
  | none => .idle "" []

/-! ## The suggestion state machine (`state$ = term$.pipe(switchMap …)`)

One event per scheduler step: either a term settles (survives debounce
and `distinctUntilChanged`), or the network call dispatched at
generation `g` completes.  `switchMap` unsubscribes the previous inner
observable when a term settles, so a completion is applied only when its
generation is the still-subscribed (pending) one; any other completion
is discarded.  `dispatched` logs every provider invocation. -/

/-- Outcome of one `searchWikipedia` call: the parsed 4-tuple on
success, or the failure's textual description
(`e instanceof Error ? e.message : String(e)`). -/
inductive SearchOutcome where
  | success (data : WikiOpenSearch)
  | failure (message : String)

/-- A scheduler event for the state machine. -/
inductive MEvent where
  | settle (term : String)
  | complete (gen : Nat) (outcome : SearchOutcome)

/-- Test for `settle` events. -/
def MEvent.isSettle : MEvent → Bool
  | .settle _ => true
  | .complete _ _ => false

/-- The live state of `state$` together with the switchMap bookkeeping. -/
structure MachineState where
  current : SuggestState
  gen : Nat
  pending : Option (Nat × String)
  dispatched : List (Nat × String)

/-- The machine at subscription start: `startWith(initialState)` has
already emitted, no search is in flight. -/
def initMachine (init : SuggestState) : MachineState :=
  { current := init, gen := 0, pending := none, dispatched := [] }

/-- One scheduler step.  On `settle t`: below `minLength` the inner
observable is `of(idle(t, []))` (no call issued); otherwise
`startWith(loading(t, []))` emits at once and the call is dispatched at
a fresh generation.  On `complete g o`: applied only when `g` is the
pending generation (switchMap has not switched away), producing
`done(t, toSuggestions data)` or — via `catchError` — `error(t, [], msg)`. -/
def step (minLength : Nat) (ms : MachineState) : MEvent → MachineState
  | .settle t =>
    let g := ms.gen + 1
    if t.length < minLength then
      { current := .idle t [], gen := g, pending := none,
        dispatched := ms.dispatched }
    else
      { current := .loading t [], gen := g, pending := some (g, t),
        dispatched := ms.dispatched ++ [(g, t)] }
  | .complete g o =>
    match ms.pending with
    | some (pg, t) =>
      if pg = g then
        { current :=
            match o with
            | .success data => .done t (toSuggestions data)
            | .failure msg => .error t [] msg,
          gen := ms.gen, pending := none, dispatched := ms.dispatched }
      else ms
    | none => ms

/-- Run the machine over a list of scheduler events. -/
def run (minLength : Nat) (ms : MachineState) (events : List MEvent) : MachineState :=
  events.foldl (step minLength) ms

/-- The switch-latest invariant once `B` is the latest settled term:
the current state carries `B`, and any still-pending call is `B`'s. -/
def latestInv (B : String) (ms : MachineState) : Prop :=
  ms.current.term = B ∧ ∀ g t, ms.pending = some (g, t) → t = B

/-! ## Keyboard-navigation cursor (`keySub` + the `subscribe` reset) -/

/-- The four keys the `keydown` filter lets through. -/
inductive Key where
  | arrowDown
  | arrowUp
  | enter
  | escape

/-- What the render/persist subscription and the keyboard subscription
share: the cached latest state and the highlighted index. -/
structure UiState where
  lastState : SuggestState
  activeIndex : Int

/-- An event seen by the shared handlers: a `state$` emission or a
filtered keydown. -/
inductive UiEvent where
  | emission (s : SuggestState)
  | key (k : Key)

/-- One handler invocation.  A state emission caches the state and
resets `activeIndex` to `-1`.  ArrowDown applies
`Math.min(activeIndex + 1, items.length - 1)`, ArrowUp
`Math.max(activeIndex - 1, -1)`, Escape `-1`; Enter opens/persists but
leaves the cursor where it is. -/
def uiStep (u : UiState) : UiEvent → UiState
  | .emission s => { lastState := s, activeIndex := -1 }
  | .key .arrowDown =>
    let cap : Int := (u.lastState.items.length : Int) - 1
    { u with activeIndex := min (u.activeIndex + 1) cap }
  | .key .arrowUp =>
    { u with activeIndex := max (u.activeIndex - 1) (-1) }
  | .key .escape => { u with activeIndex := -1 }
  | .key .enter => u

/-- Run the shared handlers over a list of UI events. -/
def uiRun (u : UiState) (events : List UiEvent) : UiState :=
  events.foldl uiStep u

/-- The cursor range invariant: `-1 ≤ activeIndex ≤ items.length - 1`. -/
def cursorInv (u : UiState) : Prop :=
  -1 ≤ u.activeIndex ∧ u.activeIndex ≤ (u.lastState.items.length : Int) - 1

/-! ## Theorems -/

lemma latestInv_settle (m : Nat) (ms : MachineState) (t : String) :
    latestInv t (step m ms (.settle t)) := by
  unfold latestInv step SuggestState.term
  by_cases h : t.length < m <;> simp [h]

lemma latestInv_complete (m : Nat) (ms : MachineState) (g : Nat) (o : SearchOutcome)
    (B : String) (h : latestInv B ms) : latestInv B (step m ms (.complete g o)) := by
  obtain ⟨h1, h2⟩ := h
  match hp : ms.pending with
  | none =>
    have hs : step m ms (.complete g o) = ms := by
      unfold step
      rw [hp]
    rw [hs]
    exact ⟨h1, h2⟩
  | some (pg, pt) =>
    have hpt : pt = B := h2 pg pt hp
    by_cases hg : pg = g
    · have hs : step m ms (.complete g o) =
          { current :=
              match o with
              | .success data => .done pt (toSuggestions data)
              | .failure msg => .error pt [] msg,
            gen := ms.gen, pending := none, dispatched := ms.dispatched } := by
        unfold step
        rw [hp]
        simp [hg]
      rw [hs]
      refine ⟨?_, ?_⟩
      · cases o <;> simp [SuggestState.term, hpt]
      · intro a b hab
        simp at hab
    · have hs : step m ms (.complete g o) = ms := by
        unfold step
        rw [hp]
        simp [hg]
      rw [hs]
      exact ⟨h1, h2⟩

lemma latestInv_run (m : Nat) (ms : MachineState) (events : List MEvent) (B : String)
    (hinv : latestInv B ms) (hev : ∀ e ∈ events, e.isSettle = false) :
    latestInv B (run m ms events) := by
  induction events generalizing ms with
  | nil => exact hinv
  | cons e es ih =>
    have he : e.isSettle = false := hev e (List.mem_cons_self e es)
    have hes : ∀ x ∈ es, x.isSettle = false := fun x hx => hev x (List.mem_cons_of_mem e hx)
    cases e with
    | settle t => simp [MEvent.isSettle] at he
    | complete g o =>
      exact ih (step m ms (.complete g o)) (latestInv_complete m ms g o B hinv) hes

/-- C1: switch-latest cancellation.  In every event trace in which term
`B` settles and no further term settles afterwards (only network
completions, in any order, of any pending generation), the current
`SuggestState` at the end of the trace carries `term = B`: the outcome
of an earlier term's still-pending search never becomes the current
state. -/
theorem switch_latest_wins (m : Nat) (init : MachineState) (pre post : List MEvent)
    (B : String) (hpost : ∀ e ∈ post, e.isSettle = false) :
    (run m init (pre ++ MEvent.settle B :: post)).current.term = B := by
  have hrw : run m init (pre ++ MEvent.settle B :: post)
      = run m (step m (run m init pre) (MEvent.settle B)) post := by
    unfold run
    rw [List.foldl_append, List.foldl_cons]
  rw [hrw]
  exact (latestInv_run m _ post B (latestInv_settle m (run m init pre) B) hpost).1

/-- C1 witness: a concrete trace — "cat" settles, then "dog" settles,
then cat's stale generation-1 response and dog's generation-2 response
complete in that order; the final state's term is "dog". -/
theorem switch_latest_wins_witness :
    (run 3 (initMachine (initialStateOf none))
      ([MEvent.settle "cat"] ++ MEvent.settle "dog" ::
        [MEvent.complete 1 (SearchOutcome.success ("cat", ["Cat"], ["d1"], ["u1"])),
         MEvent.complete 2 (SearchOutcome.success ("dog", ["Dog"], ["d2"], ["u2"]))])).current.term
      = "dog" :=
  switch_latest_wins 3 (initMachine (initialStateOf none)) [MEvent.settle "cat"]
    [MEvent.complete 1 (SearchOutcome.success ("cat", ["Cat"], ["d1"], ["u1"])),
     MEvent.complete 2 (SearchOutcome.success ("dog", ["Dog"], ["d2"], ["u2"]))]
    "dog" (by intro e he; fin_cases he <;> rfl)

/-- C4: a settled term shorter than `minLength` yields exactly
`idle(t, [])`, no provider call is dispatched and nothing is pending.
(Settled terms are already trimmed by `map(() => input.value.trim())`,
so `t.length` is the trimmed length.) -/
theorem short_term_idle (m : Nat) (ms : MachineState) (t : String)
    (h : t.length < m) :
    (step m ms (.settle t)).current = .idle t [] ∧
    (step m ms (.settle t)).dispatched = ms.dispatched ∧
    (step m ms (.settle t)).pending = none := by
  unfold step
  simp [h]

/-- C4 witness: "ca" against the default `minLength = 3`. -/
theorem short_term_idle_witness :
    (step 3 (initMachine (initialStateOf none)) (.settle "ca")).current
      = SuggestState.idle "ca" [] ∧
    (step 3 (initMachine (initialStateOf none)) (.settle "ca")).dispatched
      = (initMachine (initialStateOf none)).dispatched ∧
    (step 3 (initMachine (initialStateOf none)) (.settle "ca")).pending = none :=
  short_term_idle 3 (initMachine (initialStateOf none)) "ca" (by decide)

/-- C2 counterexample: "cat" settles and completes with one result, so
the state current before the next settlement holds one item; when "dog"
settles, the emitted loading state is `loading("dog", [])` — not
`loading("dog", previousItems)` as the claim states, since its item
list differs from the previous state's. -/
theorem loading_drops_previous_items_cex :
    (run 3 (initMachine (initialStateOf none))
      [MEvent.settle "cat",
       MEvent.complete 1 (SearchOutcome.success ("cat", ["Cat"], ["d1"], ["u1"]))]).current.items
      = [mkSuggestion "Cat" "d1" "u1"] ∧
    (step 3
      (run 3 (initMachine (initialStateOf none))
        [MEvent.settle "cat",
         MEvent.complete 1 (SearchOutcome.success ("cat", ["Cat"], ["d1"], ["u1"]))])
      (MEvent.settle "dog")).current
      = SuggestState.loading "dog" [] ∧
    SuggestState.loading "dog" [] ≠ SuggestState.loading "dog" [mkSuggestion "Cat" "d1" "u1"] := by
  refine ⟨rfl, rfl, ?_⟩
  simp [mkSuggestion]

/-- C2 (amended): for a settled term of at least `minLength`, the state
emitted before the search completes is `loading(t, [])` — the item list
of the loading state is always empty; the previous result list is not
carried over — and the provider is invoked for `t` at a fresh
generation. -/
theorem loading_items_empty (m : Nat) (ms : MachineState) (t : String)
    (h : m ≤ t.length) :
    (step m ms (.settle t)).current = .loading t [] ∧
    (step m ms (.settle t)).dispatched = ms.dispatched ++ [(ms.gen + 1, t)] := by
  unfold step
  simp [Nat.not_lt.2 h]

/-- C2 witness: "cat" with the default `minLength = 3` from the idle
start state. -/
theorem loading_items_empty_witness :
    (step 3 (initMachine (initialStateOf none)) (.settle "cat")).current
      = SuggestState.loading "cat" [] ∧
    (step 3 (initMachine (initialStateOf none)) (.settle "cat")).dispatched
      = (initMachine (initialStateOf none)).dispatched
        ++ [((initMachine (initialStateOf none)).gen + 1, "cat")] :=
  loading_items_empty 3 (initMachine (initialStateOf none)) "cat" (by decide)

/-- C3 counterexample: "cat" settles and completes with one result;
"dog" settles and its search fails with "Timeout has occurred".  The
emitted state is `error("dog", [], msg)` — its item list is empty, not
the one-element list that was current before the call, so the failure
does clear the items, contrary to the claim. -/
theorem error_drops_previous_items_cex :
    (run 3 (initMachine (initialStateOf none))
      [MEvent.settle "cat",
       MEvent.complete 1 (SearchOutcome.success ("cat", ["Cat"], ["d1"], ["u1"]))]).current.items
      = [mkSuggestion "Cat" "d1" "u1"] ∧
    (run 3 (initMachine (initialStateOf none))
      [MEvent.settle "cat",
       MEvent.complete 1 (SearchOutcome.success ("cat", ["Cat"], ["d1"], ["u1"])),
       MEvent.settle "dog",
       MEvent.complete 2 (SearchOutcome.failure "Timeout has occurred")]).current
      = SuggestState.error "dog" [] "Timeout has occurred" ∧
    SuggestState.error "dog" [] "Timeout has occurred"
      ≠ SuggestState.error "dog" [mkSuggestion "Cat" "d1" "u1"] "Timeout has occurred" := by
  refine ⟨rfl, rfl, ?_⟩
  simp [mkSuggestion]

/-- C3 (amended): when the pending search for `t` fails, `catchError`
turns the failure into the state `error(t, [], message)` — the item
list of the error state is always empty (the previous list is not
preserved) and `message` is the failure's textual description; the
failure is absorbed into the state and never escapes the machine (the
step is a total function on every outcome). -/
theorem error_items_empty (m : Nat) (ms : MachineState) (g : Nat) (t msg : String)
    (h : ms.pending = some (g, t)) :
    (step m ms (.complete g (.failure msg))).current = .error t [] msg := by
  unfold step
  rw [h]
  simp

/-- C3 witness: the pending "dog" search at generation 1 fails with a
timeout message. -/
theorem error_items_empty_witness :
    (step 3 (step 3 (initMachine (initialStateOf none)) (.settle "dog"))
      (.complete 1 (.failure "Timeout has occurred"))).current
      = SuggestState.error "dog" [] "Timeout has occurred" :=
  error_items_empty 3 (step 3 (initMachine (initialStateOf none)) (.settle "dog"))
    1 "dog" "Timeout has occurred" rfl

/-- C5: `toSuggestions` ignores the query echo, produces exactly
`min |titles| |descriptions| |urls|` suggestions, and the i-th
suggestion is the object `{title: titles[i], description:
descriptions[i], url: urls[i]}`, in provider order. -/
theorem toSuggestions_spec (q r : String) (ts ds us : List String) :
    toSuggestions (q, ts, ds, us) = toSuggestions (r, ts, ds, us) ∧
    (toSuggestions (q, ts, ds, us)).length = min ts.length (min ds.length us.length) ∧
    ∀ i (hn : i < (toSuggestions (q, ts, ds, us)).length) (hts : i < ts.length)
      (hds : i < ds.length) (hus : i < us.length),
      (toSuggestions (q, ts, ds, us)).get ⟨i, hn⟩
        = mkSuggestion (ts.get ⟨i, hts⟩) (ds.get ⟨i, hds⟩) (us.get ⟨i, hus⟩) := by
  refine ⟨rfl, by unfold toSuggestions; simp, ?_⟩
  intro i hn hts hds hus
  unfold toSuggestions
  simp only [List.get_eq_getElem, List.getElem_map, List.getElem_range]
  rw [List.getD_eq_getElem ts "" hts, List.getD_eq_getElem ds "" hds,
    List.getD_eq_getElem us "" hus]

/-- C5 witness: a response with 2 titles, 1 description and 3 urls
yields exactly one suggestion, built from the first entries. -/
theorem toSuggestions_spec_witness :
    (toSuggestions ("cat", ["Cat", "Category"], ["d1"], ["u1", "u2", "u3"])).length = 1 ∧
    (toSuggestions ("cat", ["Cat", "Category"], ["d1"], ["u1", "u2", "u3"])).get ⟨0, by decide⟩
      = mkSuggestion "Cat" "d1" "u1" :=
  ⟨((toSuggestions_spec "cat" "x" ["Cat", "Category"] ["d1"] ["u1", "u2", "u3"]).2.1).trans
      (by decide),
   (toSuggestions_spec "cat" "x" ["Cat", "Category"] ["d1"] ["u1", "u2", "u3"]).2.2 0
      (by decide) (by decide) (by decide) (by decide)⟩

lemma loadPersisted_encoded_valid (st : Store) (t : String) (its : List JVal)
    (savedAt now : Int) (hg : st.getThrows = false)
    (hc : st.content = some (some (encodePersisted t its savedAt)))
    (hwin : now - savedAt ≤ PERSIST_TTL_MS) :
    (loadPersisted st now).1 = some (t, its) ∧
    initialStateOf (loadPersisted st now).1 = .done t its := by
  unfold loadPersisted
  rw [hg, hc]
  simp only [encodePersisted, JVal.falsy, JVal.lookupField, List.lookup, jsSub, jsToNumberU,
    jsToNumber, jsGt, Bool.false_eq_true, if_false]
  simp [Int.not_lt.2 hwin, initialStateOf]

lemma loadPersisted_encoded_expired (st : Store) (t : String) (its : List JVal)
    (savedAt now : Int) (hg : st.getThrows = false) (hr : st.removeThrows = false)
    (hc : st.content = some (some (encodePersisted t its savedAt)))
    (hexp : PERSIST_TTL_MS < now - savedAt) :
    loadPersisted st now = (none, { st with content := none }) := by
  unfold loadPersisted
  rw [hg, hc]
  simp only [encodePersisted, JVal.falsy, JVal.lookupField, List.lookup, jsSub, jsToNumberU,
    jsToNumber, jsGt, hr, Bool.false_eq_true, if_false]
  simp [hexp]

/-- C6: a persisted snapshot read more than 30 minutes after `savedAt`
is treated as absent and deleted from the store; one read within the
window (e.g. 10 minutes later) is returned and seeds
`done(term, items)` as the initial state. -/
theorem loadPersisted_ttl (st : Store) (t : String) (its : List JVal)
    (savedAt now : Int) (hg : st.getThrows = false) (hr : st.removeThrows = false)
    (hc : st.content = some (some (encodePersisted t its savedAt))) :
    (PERSIST_TTL_MS < now - savedAt →
       loadPersisted st now = (none, { st with content := none })) ∧
    (now - savedAt ≤ PERSIST_TTL_MS →
       (loadPersisted st now).1 = some (t, its) ∧
       initialStateOf (loadPersisted st now).1 = .done t its) :=
  ⟨fun hexp => loadPersisted_encoded_expired st t its savedAt now hg hr hc hexp,
   fun hwin => loadPersisted_encoded_valid st t its savedAt now hg hc hwin⟩

/-- C6 witness: a snapshot saved at epoch 0: the read 10 minutes later
returns it; the read 40 minutes later yields `null` and empties the
slot. -/
theorem loadPersisted_ttl_witness :
    (loadPersisted
      (Store.mk (some (some (encodePersisted "cat" [mkSuggestion "Cat" "d1" "u1"] 0)))
        false false false) 600000).1 = some ("cat", [mkSuggestion "Cat" "d1" "u1"]) ∧
    loadPersisted
      (Store.mk (some (some (encodePersisted "cat" [mkSuggestion "Cat" "d1" "u1"] 0)))
        false false false) 2400000 = (none, Store.mk none false false false) :=
  ⟨((loadPersisted_ttl _ "cat" [mkSuggestion "Cat" "d1" "u1"] 0 600000 rfl rfl rfl).2
      (by decide)).1,
   (loadPersisted_ttl _ "cat" [mkSuggestion "Cat" "d1" "u1"] 0 2400000 rfl rfl rfl).1
      (by decide)⟩

/-- C7: round-trip.  Persisting a `done` snapshot `{term, items,
savedAt}` through `savePersisted` and reloading within the 30-minute
window restores exactly that term and item list, and the seeded initial
state is `done(term, items)`. -/
theorem persist_roundtrip (st : Store) (t : String) (its : List JVal)
    (savedAt now : Int) (hset : st.setThrows = false) (hget : st.getThrows = false)
    (hne : its ≠ []) (hwin : now - savedAt ≤ PERSIST_TTL_MS) :
    (loadPersisted (savePersisted st t its savedAt) now).1 = some (t, its) ∧
    initialStateOf (loadPersisted (savePersisted st t its savedAt) now).1
      = SuggestState.done t its := by
  have hs : savePersisted st t its savedAt
      = { st with content := some (some (encodePersisted t its savedAt)) } := by
    simp [savePersisted, hset]
  rw [hs]
  exact loadPersisted_encoded_valid _ t its savedAt now hget rfl hwin

/-- C7 witness: the spec's own example — `done("cat",
[{title:"Cat", url:"https://x/Cat"}])` saved and immediately reloaded. -/
theorem persist_roundtrip_witness :
    (loadPersisted
      (savePersisted (Store.mk none false false false) "cat"
        [mkSuggestion "Cat" "d1" "https://x/Cat"] 1000) 1000).1
      = some ("cat", [mkSuggestion "Cat" "d1" "https://x/Cat"]) ∧
    initialStateOf
      (loadPersisted
        (savePersisted (Store.mk none false false false) "cat"
          [mkSuggestion "Cat" "d1" "https://x/Cat"] 1000) 1000).1
      = SuggestState.done "cat" [mkSuggestion "Cat" "d1" "https://x/Cat"] :=
  persist_roundtrip (Store.mk none false false false) "cat"
    [mkSuggestion "Cat" "d1" "https://x/Cat"] 1000 1000 rfl rfl
    (by simp) (by decide)

/-- C9: storage failures never propagate and never change the in-memory
state.  A throwing `setItem`/`removeItem` leaves the slot exactly as it
was (`savePersisted`/`clearPersisted` return normally by totality); a
throwing `getItem` makes `loadPersisted` return absent with the store
untouched, and the seeded initial state is the same as over an empty,
healthy store. -/
theorem persistence_failures_swallowed (st : Store) (t : String) (its : List JVal)
    (savedAt now : Int) :
    (st.setThrows = true → savePersisted st t its savedAt = st) ∧
    (st.removeThrows = true → clearPersisted st = st) ∧
    (st.getThrows = true →
       loadPersisted st now = (none, st) ∧
       initialStateOf (loadPersisted st now).1
         = initialStateOf (loadPersisted (Store.mk none false false false) now).1) := by
  refine ⟨fun h => by simp [savePersisted, h], fun h => by simp [clearPersisted, h],
    fun h => ?_⟩
  have h1 : loadPersisted st now = (none, st) := by simp [loadPersisted, h]
  refine ⟨h1, ?_⟩
  rw [h1]
  simp [loadPersisted, initialStateOf]

/-- C9 witness: a store whose three primitives all throw, holding a
valid-looking record; every operation is a no-op and the seeded state
matches the empty store's. -/
theorem persistence_failures_swallowed_witness :
    savePersisted (Store.mk (some (some (encodePersisted "cat" [] 0))) true true true)
      "dog" [] 5 = Store.mk (some (some (encodePersisted "cat" [] 0))) true true true ∧
    clearPersisted (Store.mk (some (some (encodePersisted "cat" [] 0))) true true true)
      = Store.mk (some (some (encodePersisted "cat" [] 0))) true true true ∧
    loadPersisted (Store.mk (some (some (encodePersisted "cat" [] 0))) true true true) 600000
      = (none, Store.mk (some (some (encodePersisted "cat" [] 0))) true true true) :=
  ⟨(persistence_failures_swallowed
      (Store.mk (some (some (encodePersisted "cat" [] 0))) true true true) "dog" [] 5 600000).1
      rfl,
   (persistence_failures_swallowed
      (Store.mk (some (some (encodePersisted "cat" [] 0))) true true true) "dog" [] 5 600000).2.1
      rfl,
   ((persistence_failures_swallowed
      (Store.mk (some (some (encodePersisted "cat" [] 0))) true true true) "dog" [] 5 600000).2.2
      rfl).1⟩

/-- C10 counterexample: the record `{term: "cat", items: [],
savedAt: null}` has a `savedAt` that is not a number, yet it is NOT
accepted as a never-expiring snapshot: JS coerces `null` to `0`, so
`now - savedAt = now` exceeds the TTL at any realistic clock value and
the record is rejected and deleted. -/
theorem null_savedAt_rejected_cex :
    (loadPersisted
      (Store.mk (some (some (JVal.obj
        [("term", JVal.str "cat"), ("items", JVal.arr []), ("savedAt", JVal.null)])))
        false false false) 1760000000000).1 = none ∧
    (loadPersisted
      (Store.mk (some (some (JVal.obj
        [("term", JVal.str "cat"), ("items", JVal.arr []), ("savedAt", JVal.null)])))
        false false false) 1760000000000).2.content = none := ⟨rfl, rfl⟩

/-- C10 (amended): `loadPersisted` validates only that `term` is a
string and `items` an array.  A record whose `savedAt` is absent — or
more generally whose JS numeric coercion is `NaN`, such as a
non-numeric string or a plain object — makes the expiry subtraction
evaluate to `NaN`, the `>` comparison false, and is accepted as a
valid, never-expiring snapshot; but a non-number `savedAt` that
coerces to a number (e.g. `null → 0`) enters the ordinary expiry
comparison and can be rejected. -/
theorem nan_savedAt_never_expires (st : Store) (fields : List (String × JVal))
    (t : String) (its : List JVal) (now : Int)
    (hg : st.getThrows = false)
    (hc : st.content = some (some (JVal.obj fields)))
    (hterm : (JVal.obj fields).lookupField "term" = some (.str t))
    (hitems : (JVal.obj fields).lookupField "items" = some (.arr its))
    (hnan : jsToNumberU ((JVal.obj fields).lookupField "savedAt") = none) :
    (loadPersisted st now).1 = some (t, its) := by
  unfold loadPersisted
  rw [hg, hc]
  simp only [JVal.falsy, Bool.false_eq_true, if_false, hterm, hitems, jsSub, hnan, jsGt]

/-- C10 witness: a record with no `savedAt` field at all is restored at
an arbitrary (very late) clock value. -/
theorem nan_savedAt_never_expires_witness :
    (loadPersisted
      (Store.mk (some (some (JVal.obj [("term", JVal.str "cat"), ("items", JVal.arr [])])))
        false false false) 1760000000000).1 = some ("cat", []) :=
  nan_savedAt_never_expires
    (Store.mk (some (some (JVal.obj [("term", JVal.str "cat"), ("items", JVal.arr [])])))
      false false false)
    [("term", JVal.str "cat"), ("items", JVal.arr [])] "cat" [] 1760000000000
    rfl rfl rfl rfl rfl

lemma cursorInv_step (u : UiState) (e : UiEvent) (h : cursorInv u) :
    cursorInv (uiStep u e) := by
  obtain ⟨h1, h2⟩ := h
  have hL : (0 : Int) ≤ (u.lastState.items.length : Int) := Int.natCast_nonneg _
  cases e with
  | emission s =>
    exact ⟨le_refl _, by
      have : (0 : Int) ≤ (s.items.length : Int) := Int.natCast_nonneg _
      simp only [uiStep]
      omega⟩
  | key k =>
    cases k with
    | arrowDown =>
      refine ⟨le_min (by omega) (by omega), ?_⟩
      simp only [uiStep]
      exact min_le_right _ _
    | arrowUp =>
      refine ⟨le_max_right _ _, ?_⟩
      simp only [uiStep]
      exact max_le (by omega) (by omega)
    | enter => exact ⟨h1, h2⟩
    | escape => exact ⟨le_refl _, by simp only [uiStep]; omega⟩

/-- C8: the keyboard cursor stays in `[-1, items.length - 1]` of the
cached current state's items across every sequence of state emissions
and keyboard intents, and the next state emission resets it to `-1`. -/
theorem cursor_range_invariant (u : UiState) (events : List UiEvent)
    (h : cursorInv u) :
    cursorInv (uiRun u events) ∧
    ∀ s, (uiStep (uiRun u events) (UiEvent.emission s)).activeIndex = -1 := by
  refine ⟨?_, fun s => rfl⟩
  induction events generalizing u with
  | nil => exact h
  | cons e es ih => exact ih (uiStep u e) (cursorInv_step u e h)

/-- C8 witness: from the idle start, two ArrowDowns and an ArrowUp over
a two-item result list keep the cursor in range. -/
theorem cursor_range_invariant_witness :
    cursorInv
      (uiRun (UiState.mk (SuggestState.idle "" []) (-1))
        [UiEvent.emission
            (SuggestState.done "cat" [mkSuggestion "Cat" "d1" "u1",
              mkSuggestion "Category" "d2" "u2"]),
         UiEvent.key Key.arrowDown, UiEvent.key Key.arrowDown,
         UiEvent.key Key.arrowDown, UiEvent.key Key.arrowUp,
         UiEvent.key Key.escape]) :=
  (cursor_range_invariant (UiState.mk (SuggestState.idle "" []) (-1))
    [UiEvent.emission
        (SuggestState.done "cat" [mkSuggestion "Cat" "d1" "u1",
          mkSuggestion "Category" "d2" "u2"]),
     UiEvent.key Key.arrowDown, UiEvent.key Key.arrowDown,
     UiEvent.key Key.arrowDown, UiEvent.key Key.arrowUp,
     UiEvent.key Key.escape]
    (by constructor <;> decide)).1
